import Mathlib

set_option linter.unusedVariables false
set_option linter.unnecessarySeqFocus false

/-!
Shallow embedding of the `django-optimizations` core
(`optimizations/thumbnailcache.py` and `optimizations/javascriptcache.py`,
Python 2) and proofs about it.

Python floats are modelled by exact rationals (`ℚ`): every arithmetic step
in the embedded code is a single division, multiplication or rounding of
small integer-derived quantities, where IEEE double rounding never moves a
value across an integer-rounding boundary for realistic image dimensions.
Python 2 `round` (half away from zero) is `pyRound`, `int()` truncation
toward zero is `pyInt`, `sys.maxint` on a 64-bit build is `maxint`, and
Python 2 integer `/` (floor division) is `Int.fdiv`.
-/

namespace Optimizations

/-- Python 2 `round`: rounds half away from zero, as a map `ℚ → ℤ`. -/
def pyRound (q : ℚ) : ℤ :=
  if q < 0 then -⌊-q + 1 / 2⌋ else ⌊q + 1 / 2⌋

/-- Python `int()` applied to a float: truncation toward zero, as `ℚ → ℤ`. -/
def pyInt (q : ℚ) : ℤ :=
  if q < 0 then ⌈q⌉ else ⌊q⌋

/-- `sys.maxint` on a 64-bit CPython 2 build. -/
def maxint : ℤ := 2 ^ 63 - 1

/-- Python 2 `min` on values that may be `None`: `None` compares below every
integer in Python 2, so `min` returns `None` as soon as one side is `None`. -/
def pyMinOpt (a b : Option ℤ) : Option ℤ :=
  match a, b with
  | none, _ => none
  | _, none => none
  | some x, some y => some (min x y)

/-- `Size` from `thumbnailcache.py`: a pair of dimensions, each either a
concrete integer or `None` (unspecified). -/
structure Size where
  width : Option ℤ
  height : Option ℤ
deriving DecidableEq

/-- `Size.__new__` applied to two float arguments: `int()` truncates each. -/
def Size.ofQ (w h : ℚ) : Size :=
  ⟨some (pyInt w), some (pyInt h)⟩

/-- The concrete width of a size; `0` stands for the `TypeError` that Python
would raise on `None` arithmetic (never reached on the verified paths). -/
def Size.w (s : Size) : ℤ := s.width.getD 0

/-- The concrete height of a size (see `Size.w`). -/
def Size.h (s : Size) : ℤ := s.height.getD 0

/-- `Size.aspect`: `float(self.width) / float(self.height)`. -/
def Size.aspect (s : Size) : ℚ := (s.w : ℚ) / (s.h : ℚ)

/-- `Size.intersect`: componentwise `min` (Python 2 `min`, `None`-absorbing). -/
def Size.intersect (s t : Size) : Size :=
  ⟨pyMinOpt s.width t.width, pyMinOpt s.height t.height⟩

/-- `Size.constrain(self, reference)`: shrink `self` to fit, using the
`reference` aspect ratio; each axis is Python-2-rounded then clamped. -/
def Size.constrain (s reference : Size) : Size :=
  let reference_aspect := reference.aspect
  let width := min (pyRound ((s.h : ℚ) * reference_aspect)) s.w
  let height := min (pyRound ((s.w : ℚ) / reference_aspect)) s.h
  ⟨some width, some height⟩

/-- `_replace_null(value, fallback)`. -/
def _replace_null (value fallback : Option ℤ) : Option ℤ :=
  match value with
  | none => fallback
  | some v => some v

/-- `_size(reference, size)`: the desired size with `None` axes filled from
the reference. -/
def _size (reference size : Size) : Size :=
  ⟨_replace_null size.width reference.width,
   _replace_null size.height reference.height⟩

/-- `_size_proportional(reference, size)`: desired size adjusted to the
reference's aspect ratio, missing axes treated as `sys.maxint`. -/
def _size_proportional (reference size : Size) : Size :=
  if size.width = none ∧ size.height = none then
    _size reference size
  else
    (Size.mk (_replace_null size.width (some maxint))
      (_replace_null size.height (some maxint))).constrain reference

/-!
Images are modelled by their pixel dimensions, which is all the verified
claims observe. `Image.resize` yields an image of exactly the requested
size; `Image.crop` yields an image of the box's dimensions (PIL pads with
background if the box exceeds the image, so the output size is always the
box size).
-/

/-- The size of `image.resize(sz, Image.ANTIALIAS)`. -/
def Image.resize (sz : Size) : Size := sz

/-- The size of `image.crop((left, upper, right, lower))`. -/
def Image.crop (left upper right lower : ℤ) : Size :=
  ⟨some (right - left), some (lower - upper)⟩

/-- `_resize(image, image_size, thumbnail_display_size, thumbnail_image_size)`
at the level of sizes: the output has exactly the data (`thumbnail_image`)
size. -/
def _resize (image_size thumbnail_display_size thumbnail_image_size : Size) :
    Size :=
  Image.resize thumbnail_image_size

/-- `_resize_cropped` at the level of sizes: oversized proportional resize
followed by a center crop to the data size. -/
def _resize_cropped
    (image_size thumbnail_display_size thumbnail_image_size : Size) : Size :=
  let image_aspect := image_size.aspect
  let pre_cropped_size :=
    if image_aspect > thumbnail_image_size.aspect then
      Size.ofQ ((thumbnail_image_size.h : ℚ) * image_aspect)
        (thumbnail_image_size.h : ℚ)
    else
      Size.ofQ (thumbnail_image_size.w : ℚ)
        ((thumbnail_image_size.w : ℚ) / image_aspect)
  let source_x := Int.fdiv (pre_cropped_size.w - thumbnail_image_size.w) 2
  let source_y := Int.fdiv (pre_cropped_size.h - thumbnail_image_size.h) 2
  Image.crop source_x source_y (source_x + thumbnail_image_size.w)
    (source_y + thumbnail_image_size.h)

/-- The three method names held by the `_methods` dict. -/
inductive MethodName
  | proportional
  | resize
  | crop
deriving DecidableEq

/-- `ResizeMethod` named tuple; `do_resize` is kept at the level of sizes. -/
structure ResizeMethod where
  get_display_size : Size → Size → Size
  get_data_size : Size → Size → Size
  do_resize : Size → Size → Size → Size
  hash_key : String

/-- The `_methods` dict. -/
def _methods : MethodName → ResizeMethod
  | .proportional => ⟨_size_proportional, _size, _resize, "resize"⟩
  | .resize => ⟨_size, _size, _resize, "resized"⟩
  | .crop => ⟨_size, _size_proportional, _resize_cropped, "crop"⟩

/-!
Identifier parameters. The base classes `Asset` and `GroupedAsset` live in
`optimizations/assetcache.py`, which is not part of this snapshot; their
`get_id_params` contributions are modelled from the spec. The parameter
dicts have a fixed key set, so they are modelled as records; two records
are equal exactly when the corresponding Python dicts are equal.
-/

/-- Modelled from the spec: the missing `Asset.get_id_params`
(`optimizations/assetcache.py`) contributes the source asset's stable
identity token to the parameter dict. -/
def Asset.get_id_params (sourceId : String) : String := sourceId

/-- Modelled from the spec: the missing `GroupedAsset.get_id_params`
(`optimizations/assetcache.py`) contributes the ordered list of constituent
identities to the parameter dict. -/
def GroupedAsset.get_id_params (sourceIds : List String) : List String :=
  sourceIds

/-- The parameter dict built by `ThumbnailAsset.get_id_params`. -/
structure ThumbIdParams where
  base : String
  width : Option ℤ
  height : Option ℤ
  method : String
deriving DecidableEq

/-- `ThumbnailAsset.get_id_params`: the super dict plus the display width,
display height and the method's `hash_key`. -/
def ThumbnailAsset.get_id_params (sourceId : String) (display_size : Size)
    (method : MethodName) : ThumbIdParams :=
  { base := Asset.get_id_params sourceId
    width := display_size.width
    height := display_size.height
    method := (_methods method).hash_key }

/-- The parameter dict built by `JavascriptAsset.get_id_params`. -/
structure JsIdParams where
  base : List String
  compile : Bool
deriving DecidableEq

/-- `JavascriptAsset.get_id_params`: the super (grouped) dict plus the
`compile` flag. -/
def JavascriptAsset.get_id_params (sourceIds : List String)
    (compile : Bool) : JsIdParams :=
  { base := GroupedAsset.get_id_params sourceIds
    compile := compile }

/-!
`ThumbnailCache.get_thumbnail`, geometry and asset-selection part. The
storage lookup is external; what the core decides is the display size, the
data (sample) size, whether the original asset is passed through untouched,
and the width/height the returned `Thumbnail` reports.
-/

/-- Which asset a `get_thumbnail` call wraps in the returned `Thumbnail`. -/
inductive AssetChoice
  | original
  | thumbnailAsset
deriving DecidableEq

/-- The observable outcome of `ThumbnailCache.get_thumbnail`. -/
structure ThumbOutcome where
  choice : AssetChoice
  display_size : Size
  data_size : Size
  width : Option ℤ
  height : Option ℤ
deriving DecidableEq

/-- `ThumbnailCache.get_thumbnail` after a successful method lookup:
computes the display and data sizes, passes the original asset through when
`data_size == original_size`, and reports the display dimensions on the
returned `Thumbnail`. -/
def ThumbnailCache.get_thumbnail (original_size requested_size : Size)
    (method : MethodName) : ThumbOutcome :=
  let m := _methods method
  let display_size := m.get_display_size original_size requested_size
  let data_size :=
    m.get_data_size display_size (display_size.intersect original_size)
  let thumbnail_asset : AssetChoice :=
    if data_size = original_size then .original else .thumbnailAsset
  ⟨thumbnail_asset, display_size, data_size, display_size.width,
    display_size.height⟩

/-- The pixel dimensions of the artifact a `get_thumbnail` outcome serves:
the untouched original for a pass-through, otherwise the output of the
method's `do_resize` as run by `ThumbnailAsset.save`. -/
def ThumbOutcome.artifactSize (o : ThumbOutcome) (original_size : Size)
    (method : MethodName) : Size :=
  match o.choice with
  | .original => original_size
  | .thumbnailAsset =>
      (_methods method).do_resize original_size o.display_size o.data_size

/-!
The invalid-method error path of `get_thumbnail`. The `raise ValueError`
site formats the template
`"{method} is not a valid thumbnail method. Should be one of {methods}."`
but the call passes the keyword argument `method` twice and never passes
`methods`. The template and the call's keyword list are transcribed below,
together with enough of Python's `str.format` semantics to evaluate them.
-/

/-- One piece of a Python format string: a literal run or a `{name}` field. -/
inductive Fmt
  | lit (s : String)
  | arg (name : String)
deriving DecidableEq

/-- Python `str.format` with keyword arguments: substitutes each field from
the keyword list, failing (`KeyError`) on a field with no matching keyword. -/
def pyFormat (template : List Fmt) (kwargs : List (String × String)) :
    Option String :=
  match template with
  | [] => some ""
  | .lit s :: rest =>
      (pyFormat rest kwargs).map (fun t => s ++ t)
  | .arg n :: rest =>
      match kwargs.lookup n with
      | none => none
      | some v => (pyFormat rest kwargs).map (fun t => v ++ t)

/-- Whether a Python call's keyword-argument name list repeats a name; a
repeated keyword argument is a `SyntaxError` ("keyword argument repeated")
raised when the enclosing module is compiled. Decidable. -/
def keywordRepeated (names : List String) : Prop :=
  ¬names.Nodup

/-- The error-message template at `thumbnailcache.py:229`. -/
def invalid_method_template : List Fmt :=
  [.arg "method",
   .lit " is not a valid thumbnail method. Should be one of ",
   .arg "methods",
   .lit "."]

/-- The keyword-argument names of the `format` call at
`thumbnailcache.py:229-232`: `method` is passed twice. -/
def invalid_method_kwarg_names : List String :=
  ["method", "method"]

/-- The keyword bindings the `format` call would supply if Python collapsed
the repeated keyword instead of rejecting it: only `method` is bound
(first to the invalid name, then overwritten by the joined method names). -/
def invalid_method_kwargs (methodName joined : String) :
    List (String × String) :=
  [("method", joined)]

/-!
`ThumbnailAsset.save` (the materialisation step) as a state machine over an
abstract filesystem. The decode handle, the resize step and the image write
are external effects; they are parameters that either succeed or fail.
Python exceptions are split into `IOError` and everything else.
-/

/-- A Python exception, as far as `ThumbnailAsset.save` distinguishes. -/
inductive PyErr
  | ioError (msg : String)
  | other (msg : String)
deriving DecidableEq

/-- `str(ex)` for a modelled exception. -/
def PyErr.str : PyErr → String
  | .ioError msg => msg
  | .other msg => msg

/-- The outcome of a `ThumbnailAsset.save` call: the exception it raises,
if any, and the set of paths present in storage afterwards. -/
structure SaveOutcome where
  result : Option PyErr
  files : Finset String

/-- `ThumbnailAsset.save`: decode via the opener, resize (failures
re-raised as `IOError`), then write; a failed write raises `IOError` and
removes the incomplete file in a `finally` block before propagating. The
`decode` parameter is the outcome of `next(self._opener)` (PIL's
`Image.open`), `resize` the outcome of `self._method.do_resize`, and
`write` the outcome of `image_data.save`: `Except.ok` on success, and on
failure the raised exception paired (for `write`) with whether a partial
file was left behind. -/
def ThumbnailAsset.save (decode : Except PyErr Unit)
    (resize : Except PyErr Unit) (write : Except (PyErr × Bool) Unit)
    (thumbnail_path : String) (fs : Finset String) : SaveOutcome :=
  match decode with
  | .error ex => ⟨some ex, fs⟩
  | .ok _ =>
    match resize with
    | .error ex => ⟨some (.ioError ex.str), fs⟩
    | .ok _ =>
      match write with
      | .ok _ => ⟨none, insert thumbnail_path fs⟩
      | .error (ex, partialWritten) =>
          let fs' := if partialWritten then insert thumbnail_path fs else fs
          ⟨some (.ioError ex.str), fs'.erase thumbnail_path⟩

/-!
`javascriptcache.py`. `GroupedAsset.get_contents` and `GroupedAsset.save`
live in the missing `optimizations/assetcache.py` and are modelled from the
spec. The external compiler subprocess is a parameter: its return code,
standard output and standard error on the given input.
-/

/-- Modelled from the spec: the missing `GroupedAsset.get_contents`
(`optimizations/assetcache.py`) concatenates the constituent byte contents
with the join separator in source order (`join_str` is `";"` for
`JavascriptAsset`). -/
def GroupedAsset.get_contents (join_str : String)
    (sources : List String) : String :=
  String.intercalate join_str sources

/-- What one run of the external compiler produces. -/
structure CompilerResult where
  returncode : ℤ
  stdoutdata : String
  stderrdata : String

/-- The observable outcome of a `JavascriptAsset.save` call: messages
logged at error level, `(name, contents)` pairs written to storage, and the
exception raised, if any. -/
structure JsSaveOutcome where
  logged : List String
  saved : List (String × String)
  error : Option String
deriving DecidableEq

/-- `JavascriptAsset.save`: when `compile` is set, pipe the joined contents
through the external compiler; on non-zero exit log the diagnostics and
either raise `JavascriptError` (when not `fail_silently`) or save the
uncompiled contents; on success save the compiler's output. When `compile`
is unset, save the joined contents (the spec-modelled
`GroupedAsset.save`). -/
def JavascriptAsset.save (sources : List String) (compile : Bool)
    (fail_silently : Bool) (compiler : String → CompilerResult)
    (name : String) : JsSaveOutcome :=
  if compile then
    let contents := GroupedAsset.get_contents ";" sources
    let process := compiler contents
    if process.returncode ≠ 0 then
      if ¬fail_silently then
        ⟨[process.stderrdata], [], some "Error while compiling javascript."⟩
      else
        ⟨[process.stderrdata], [(name, contents)], none⟩
    else
      ⟨[], [(name, process.stdoutdata)], none⟩
  else
    ⟨[], [(name, GroupedAsset.get_contents ";" sources)], none⟩

/-- `JavascriptCache.get_urls` with `force_save` set and a cache miss:
builds `JavascriptAsset(assets, compile, fail_silently=fail_silently)` and
materialises it via `save` (the spec-modelled
`AssetCache.get_url(..., force_save=True)` calls the asset's `save` on a
miss). Returns the `save` outcome; with no assets nothing is built. -/
def JavascriptCache.get_urls (assets : List String) (compile : Bool)
    (fail_silently : Bool) (compiler : String → CompilerResult)
    (name : String) : JsSaveOutcome :=
  if assets ≠ [] then
    JavascriptAsset.save assets compile fail_silently compiler name
  else
    ⟨[], [], none⟩

/-- A call `cache.get_urls(assets)` that passes no keyword arguments:
Python fills the defaults from the signature
`def get_urls(self, assets, compile=True, force_save=(not settings.DEBUG),
fail_silently=True)`; with `settings.DEBUG` false, `force_save` is true. -/
def JavascriptCache.get_urls_default (assets : List String)
    (compiler : String → CompilerResult) (name : String) : JsSaveOutcome :=
  JavascriptCache.get_urls assets true true compiler name

/-! ### Supporting lemmas -/

theorem pyRound_le (q : ℚ) : (pyRound q : ℚ) ≤ q + 1 / 2 := by
  unfold pyRound
  split
  · push_cast
    have h := Int.sub_one_lt_floor (-q + 1 / 2)
    linarith
  · have h := Int.floor_le (q + 1 / 2)
    linarith

theorem le_pyRound (q : ℚ) : q - 1 / 2 ≤ (pyRound q : ℚ) := by
  unfold pyRound
  split
  · push_cast
    have h := Int.floor_le (-q + 1 / 2)
    linarith
  · have h := Int.sub_one_lt_floor (q + 1 / 2)
    linarith

theorem int_le_of_le_add_half (z n : ℤ) (h : (z : ℚ) ≤ (n : ℚ) + 1 / 2) :
    z ≤ n := by
  by_contra hc
  push_neg at hc
  have h1 : n + 1 ≤ z := hc
  have h2 : ((n : ℚ) + 1 ≤ (z : ℚ)) := by exact_mod_cast h1
  linarith

theorem int_le_of_sub_half_le (z n : ℤ) (h : (n : ℚ) - 1 / 2 ≤ (z : ℚ)) :
    n ≤ z := by
  by_contra hc
  push_neg at hc
  have h1 : z + 1 ≤ n := hc
  have h2 : ((z : ℚ) + 1 ≤ (n : ℚ)) := by exact_mod_cast h1
  linarith

theorem pyRound_intCast (n : ℤ) : pyRound (n : ℚ) = n := by
  have h1 := pyRound_le (n : ℚ)
  have h2 := le_pyRound (n : ℚ)
  have hle : pyRound (n : ℚ) ≤ n := int_le_of_le_add_half _ _ h1
  have hge : n ≤ pyRound (n : ℚ) := int_le_of_sub_half_le _ _ h2
  omega

/-- `_size_proportional` of a concrete size with itself as reference is that
size: the rounding steps are exact and the clamps are no-ops. -/
theorem size_proportional_self (W H : ℤ) (hW : 0 < W) (hH : 0 < H) :
    _size_proportional ⟨some W, some H⟩ ⟨some W, some H⟩ =
      ⟨some W, some H⟩ := by
  have hWQ : ((W : ℚ)) ≠ 0 := by exact_mod_cast hW.ne'
  have hHQ : ((H : ℚ)) ≠ 0 := by exact_mod_cast hH.ne'
  unfold _size_proportional
  rw [if_neg (by simp)]
  unfold Size.constrain Size.aspect _replace_null
  simp only [Size.w, Size.h, Option.getD_some]
  have e1 : (H : ℚ) * ((W : ℚ) / (H : ℚ)) = (W : ℚ) := by
    field_simp
  have e2 : (W : ℚ) / ((W : ℚ) / (H : ℚ)) = (H : ℚ) := by
    rw [div_div_eq_mul_div]
    field_simp
  rw [e1, e2, pyRound_intCast, pyRound_intCast, min_self, min_self]

/-- `_resize_cropped` always outputs exactly the data size: the crop box is
`(x, y, x + w, y + h)`. -/
theorem resize_cropped_size (image_size display data : Size) :
    _resize_cropped image_size display data = ⟨some data.w, some data.h⟩ := by
  unfold _resize_cropped Image.crop
  simp

/-- The display size computed from a concrete natural size is concrete on
both axes, whatever the method and the requested size. -/
theorem display_size_concrete (Nw Nh : ℤ) (requested : Size)
    (m : MethodName) :
    ∃ Dw Dh : ℤ,
      (_methods m).get_display_size ⟨some Nw, some Nh⟩ requested =
        ⟨some Dw, some Dh⟩ := by
  obtain ⟨rw, rh⟩ := requested
  cases m <;> cases rw <;> cases rh <;> exact ⟨_, _, rfl⟩

/-- The display size reported by `get_thumbnail` is the method's
`get_display_size` of the natural and requested sizes. -/
theorem get_thumbnail_display_size (o r : Size) (m : MethodName) :
    (ThumbnailCache.get_thumbnail o r m).display_size =
      (_methods m).get_display_size o r := rfl

/-- The data size computed by `get_thumbnail` is the method's
`get_data_size` of the display size and its intersection with the natural
size. -/
theorem get_thumbnail_data_size (o r : Size) (m : MethodName) :
    (ThumbnailCache.get_thumbnail o r m).data_size =
      (_methods m).get_data_size ((_methods m).get_display_size o r)
        (((_methods m).get_display_size o r).intersect o) := rfl

/-- `get_thumbnail` wraps the original asset exactly when the data size
equals the natural size. -/
theorem get_thumbnail_choice (o r : Size) (m : MethodName) :
    (ThumbnailCache.get_thumbnail o r m).choice =
      if (ThumbnailCache.get_thumbnail o r m).data_size = o then
        AssetChoice.original
      else AssetChoice.thumbnailAsset := rfl

/-- The reported width and height are those of the display size. -/
theorem get_thumbnail_reported (o r : Size) (m : MethodName) :
    (ThumbnailCache.get_thumbnail o r m).width =
        (ThumbnailCache.get_thumbnail o r m).display_size.width ∧
      (ThumbnailCache.get_thumbnail o r m).height =
        (ThumbnailCache.get_thumbnail o r m).display_size.height :=
  ⟨rfl, rfl⟩

/-- The intersection of a concrete size with itself is itself. -/
theorem intersect_self (Nw Nh : ℤ) :
    Size.intersect ⟨some Nw, some Nh⟩ ⟨some Nw, some Nh⟩ =
      ⟨some Nw, some Nh⟩ := by
  simp [Size.intersect, pyMinOpt]

/-- When the original asset is passed through, the served artifact has the
natural size. -/
theorem artifactSize_original (o r : Size) (m : MethodName)
    (h : (ThumbnailCache.get_thumbnail o r m).choice =
      AssetChoice.original) :
    (ThumbnailCache.get_thumbnail o r m).artifactSize o m = o := by
  unfold ThumbOutcome.artifactSize
  rw [h]

/-- When a `ThumbnailAsset` is built, the served artifact has the size the
method's `do_resize` produces from the natural, display and data sizes. -/
theorem artifactSize_thumbnail (o r : Size) (m : MethodName)
    (h : (ThumbnailCache.get_thumbnail o r m).choice =
      AssetChoice.thumbnailAsset) :
    (ThumbnailCache.get_thumbnail o r m).artifactSize o m =
      (_methods m).do_resize o
        (ThumbnailCache.get_thumbnail o r m).display_size
        (ThumbnailCache.get_thumbnail o r m).data_size := by
  unfold ThumbOutcome.artifactSize
  rw [h]

/-- An integer below an integer plus one half is below that integer. -/
theorem pyRound_le_int (q : ℚ) (n : ℤ) (h : q ≤ (n : ℚ)) :
    pyRound q ≤ n :=
  int_le_of_le_add_half _ _ (by linarith [pyRound_le q])

/-- The aspect-ratio bound for `Size.constrain` arithmetic: with a positive
reference aspect `Nw/Nh`, the rounded-and-clamped output `(Dw, Dh)` has
cross products `Dw·Nh` and `Dh·Nw` within `Nw + Nh` of each other —
"preserves the aspect ratio within integer rounding". -/
theorem constrain_cross_bound (Nw Nh W H : ℤ) (hNw : 0 < Nw)
    (hNh : 0 < Nh) :
    |min (pyRound ((H : ℚ) * ((Nw : ℚ) / (Nh : ℚ)))) W * Nh -
      min (pyRound ((W : ℚ) / ((Nw : ℚ) / (Nh : ℚ)))) H * Nw| ≤
      Nw + Nh := by
  have hNwQ : (0 : ℚ) < (Nw : ℚ) := by exact_mod_cast hNw
  have hNhQ : (0 : ℚ) < (Nh : ℚ) := by exact_mod_cast hNh
  set a : ℚ := (Nw : ℚ) / (Nh : ℚ) with ha
  set x := pyRound ((H : ℚ) * a) with hx
  set y := pyRound ((W : ℚ) / a) with hy
  have key1 : a * (Nh : ℚ) = (Nw : ℚ) := div_mul_cancel₀ _ (ne_of_gt hNhQ)
  have key2 : ((W : ℚ) / a) * (Nw : ℚ) = (W : ℚ) * (Nh : ℚ) := by
    rw [ha]
    field_simp
  have hxu := pyRound_le ((H : ℚ) * a)
  have hxl := le_pyRound ((H : ℚ) * a)
  have hyu := pyRound_le ((W : ℚ) / a)
  have hyl := le_pyRound ((W : ℚ) / a)
  rw [← hx] at hxu hxl
  rw [← hy] at hyu hyl
  have p1 : (x : ℚ) * Nh ≤ (H : ℚ) * Nw + (Nh : ℚ) / 2 := by
    have h := mul_le_mul_of_nonneg_right hxu (le_of_lt hNhQ)
    have e : ((H : ℚ) * a + 1 / 2) * Nh = (H : ℚ) * (a * Nh) + (Nh : ℚ) / 2 := by
      ring
    rw [e, key1] at h
    exact h
  have p2 : (H : ℚ) * Nw - (Nh : ℚ) / 2 ≤ (x : ℚ) * Nh := by
    have h := mul_le_mul_of_nonneg_right hxl (le_of_lt hNhQ)
    have e : ((H : ℚ) * a - 1 / 2) * Nh = (H : ℚ) * (a * Nh) - (Nh : ℚ) / 2 := by
      ring
    rw [e, key1] at h
    exact h
  have p3 : (y : ℚ) * Nw ≤ (W : ℚ) * Nh + (Nw : ℚ) / 2 := by
    have h := mul_le_mul_of_nonneg_right hyu (le_of_lt hNwQ)
    have e : ((W : ℚ) / a + 1 / 2) * Nw = ((W : ℚ) / a) * Nw + (Nw : ℚ) / 2 := by
      ring
    rw [e, key2] at h
    exact h
  have p4 : (W : ℚ) * Nh - (Nw : ℚ) / 2 ≤ (y : ℚ) * Nw := by
    have h := mul_le_mul_of_nonneg_right hyl (le_of_lt hNwQ)
    have e : ((W : ℚ) / a - 1 / 2) * Nw = ((W : ℚ) / a) * Nw - (Nw : ℚ) / 2 := by
      ring
    rw [e, key2] at h
    exact h
  rcases le_total x W with h1 | h1 <;> rcases le_total y H with h2 | h2
  · rw [min_eq_left h1, min_eq_left h2, abs_le]
    have q1 : (x : ℚ) * Nh ≤ (W : ℚ) * Nh :=
      mul_le_mul_of_nonneg_right (by exact_mod_cast h1) (le_of_lt hNhQ)
    have q2 : (y : ℚ) * Nw ≤ (H : ℚ) * Nw :=
      mul_le_mul_of_nonneg_right (by exact_mod_cast h2) (le_of_lt hNwQ)
    constructor
    · have hq : -((Nw : ℚ) + Nh) ≤ (x : ℚ) * Nh - (y : ℚ) * Nw := by
        linarith
      exact_mod_cast hq
    · have hq : (x : ℚ) * Nh - (y : ℚ) * Nw ≤ (Nw : ℚ) + Nh := by
        linarith
      exact_mod_cast hq
  · rw [min_eq_left h1, min_eq_right h2, abs_le]
    constructor
    · have hq : -((Nw : ℚ) + Nh) ≤ (x : ℚ) * Nh - (H : ℚ) * Nw := by
        linarith
      exact_mod_cast hq
    · have hq : (x : ℚ) * Nh - (H : ℚ) * Nw ≤ (Nw : ℚ) + Nh := by
        linarith
      exact_mod_cast hq
  · rw [min_eq_right h1, min_eq_left h2, abs_le]
    constructor
    · have hq : -((Nw : ℚ) + Nh) ≤ (W : ℚ) * Nh - (y : ℚ) * Nw := by
        linarith
      exact_mod_cast hq
    · have hq : (W : ℚ) * Nh - (y : ℚ) * Nw ≤ (Nw : ℚ) + Nh := by
        linarith
      exact_mod_cast hq
  · rw [min_eq_right h1, min_eq_right h2, abs_le]
    have q1 : (W : ℚ) * Nh ≤ (x : ℚ) * Nh :=
      mul_le_mul_of_nonneg_right (by exact_mod_cast h1) (le_of_lt hNhQ)
    have q2 : (H : ℚ) * Nw ≤ (y : ℚ) * Nw :=
      mul_le_mul_of_nonneg_right (by exact_mod_cast h2) (le_of_lt hNwQ)
    constructor
    · have hq : -((Nw : ℚ) + Nh) ≤ (W : ℚ) * Nh - (H : ℚ) * Nw := by
        linarith
      exact_mod_cast hq
    · have hq : (W : ℚ) * Nh - (H : ℚ) * Nw ≤ (Nw : ℚ) + Nh := by
        linarith
      exact_mod_cast hq

/-! ### C1 -/

/-- **C1**: the derivative identifier parameters are a pure, deterministic
function of the constituent identities and transformation parameters:
identical inputs give identical parameter maps, and changing the display
width, the display height, the strategy, the compile flag, or the source
order each yields a different parameter map. -/
theorem get_id_params_deterministic_and_sensitive :
    (∀ (s : String) (d : Size) (m : MethodName),
      ThumbnailAsset.get_id_params s d m = ThumbnailAsset.get_id_params s d m) ∧
    (∀ (ids : List String) (c : Bool),
      JavascriptAsset.get_id_params ids c = JavascriptAsset.get_id_params ids c) ∧
    (∀ (s : String) (d d' : Size) (m : MethodName), d.width ≠ d'.width →
      ThumbnailAsset.get_id_params s d m ≠ ThumbnailAsset.get_id_params s d' m) ∧
    (∀ (s : String) (d d' : Size) (m : MethodName), d.height ≠ d'.height →
      ThumbnailAsset.get_id_params s d m ≠ ThumbnailAsset.get_id_params s d' m) ∧
    (∀ (s : String) (d : Size) (m m' : MethodName), m ≠ m' →
      ThumbnailAsset.get_id_params s d m ≠ ThumbnailAsset.get_id_params s d m') ∧
    (∀ (ids : List String) (c c' : Bool), c ≠ c' →
      JavascriptAsset.get_id_params ids c ≠ JavascriptAsset.get_id_params ids c') ∧
    (∀ (ids ids' : List String) (c : Bool), ids ≠ ids' →
      JavascriptAsset.get_id_params ids c ≠ JavascriptAsset.get_id_params ids' c) := by
  refine ⟨fun _ _ _ => rfl, fun _ _ => rfl, ?_, ?_, ?_, ?_, ?_⟩
  · intro s d d' m h heq
    exact h (congrArg ThumbIdParams.width heq)
  · intro s d d' m h heq
    exact h (congrArg ThumbIdParams.height heq)
  · intro s d m m' h heq
    have hk := congrArg ThumbIdParams.method heq
    cases m <;> cases m' <;> simp_all [ThumbnailAsset.get_id_params, _methods]
  · intro ids c c' h heq
    exact h (congrArg JsIdParams.compile heq)
  · intro ids ids' c h heq
    exact h (congrArg JsIdParams.base heq)

/-- Witness for C1: changing only the display width changes the thumbnail
parameter map. -/
theorem get_id_params_deterministic_and_sensitive_witness :
    ThumbnailAsset.get_id_params "img.png" ⟨some 10, some 20⟩ .proportional ≠
      ThumbnailAsset.get_id_params "img.png" ⟨some 11, some 20⟩ .proportional :=
  get_id_params_deterministic_and_sensitive.2.2.1 "img.png"
    ⟨some 10, some 20⟩ ⟨some 11, some 20⟩ .proportional (by decide)

/-! ### C6 -/

/-- **C6** (code-bug evidence): the `raise ValueError` site for an unknown
thumbnail method repeats the keyword argument `method` in its `format` call
(a Python `SyntaxError`, so `thumbnailcache.py` cannot even be imported),
and the call never binds the template's `methods` field, so the promised
message enumerating the valid method names can never be produced. -/
theorem invalid_method_message_unproducible :
    keywordRepeated invalid_method_kwarg_names ∧
    pyFormat invalid_method_template
      (invalid_method_kwargs "unknown" "proportional, resize, crop") =
      none := by
  constructor
  · unfold keywordRepeated invalid_method_kwarg_names
    decide
  · rfl

/-! ### C7 -/

/-- **C7**: when the compile flag is set and the external compiler exits
non-zero, `JavascriptAsset.save` logs the compiler's standard-error output;
it raises `JavascriptError` exactly when `fail_silently` is unset, and with
`fail_silently` set it instead saves the uncompiled concatenation under the
same name. -/
theorem javascript_save_compiler_failure (sources : List String)
    (fail_silently : Bool) (compiler : String → CompilerResult) (name : String)
    (hrc : (compiler (GroupedAsset.get_contents ";" sources)).returncode ≠ 0) :
    (compiler (GroupedAsset.get_contents ";" sources)).stderrdata ∈
      (JavascriptAsset.save sources true fail_silently compiler name).logged ∧
    ((JavascriptAsset.save sources true fail_silently compiler name).error
        ≠ none ↔ fail_silently = false) ∧
    (fail_silently = true →
      (JavascriptAsset.save sources true fail_silently compiler name).saved =
        [(name, GroupedAsset.get_contents ";" sources)]) := by
  cases fail_silently <;>
    simp [JavascriptAsset.save, hrc]

/-- Witness for C7: a concrete failing compiler run with `fail_silently`
set logs the diagnostics, raises nothing, and saves the uncompiled join. -/
theorem javascript_save_compiler_failure_witness :
    "err" ∈ (JavascriptAsset.save ["a", "b"] true true
        (fun _ => ⟨1, "out", "err"⟩) "n.js").logged ∧
    ((JavascriptAsset.save ["a", "b"] true true
        (fun _ => ⟨1, "out", "err"⟩) "n.js").error ≠ none ↔ true = false) ∧
    (true = true →
      (JavascriptAsset.save ["a", "b"] true true
        (fun _ => ⟨1, "out", "err"⟩) "n.js").saved = [("n.js", "a;b")]) :=
  javascript_save_compiler_failure ["a", "b"] true
    (fun _ => ⟨1, "out", "err"⟩) "n.js" (by decide)

/-! ### C8 -/

/-- **C8** (counterexample): a `get_urls` call that passes no
`fail_silently` argument gets the signature default `True`, so a compiler
failure is downgraded to the uncompiled fallback instead of propagating:
here the compiler exits with status 1 yet no error is raised and the
uncompiled join is saved. -/
theorem get_urls_default_fallback_counterexample :
    (JavascriptCache.get_urls_default ["a"]
        (fun _ => ⟨1, "out", "err"⟩) "n.js").error = none ∧
    (JavascriptCache.get_urls_default ["a"]
        (fun _ => ⟨1, "out", "err"⟩) "n.js").saved = [("n.js", "a")] := by
  constructor <;> rfl

/-- **C8** (amended): the compiler-failure downgrade is controlled by the
`fail_silently` flag — the error propagates exactly when the flag is false —
but the `get_urls` signature defaults the flag to `True`, so a call that
does not pass it falls back silently (with the diagnostics logged) rather
than propagating. -/
theorem get_urls_fail_silently_controls_propagation (assets : List String)
    (compiler : String → CompilerResult) (name : String)
    (fail_silently : Bool) (hne : assets ≠ [])
    (hrc : (compiler (GroupedAsset.get_contents ";" assets)).returncode ≠ 0) :
    ((JavascriptCache.get_urls assets true fail_silently compiler name).error
        ≠ none ↔ fail_silently = false) ∧
    JavascriptCache.get_urls_default assets compiler name =
      JavascriptCache.get_urls assets true true compiler name ∧
    (JavascriptCache.get_urls_default assets compiler name).error = none ∧
    (compiler (GroupedAsset.get_contents ";" assets)).stderrdata ∈
      (JavascriptCache.get_urls_default assets compiler name).logged := by
  refine ⟨?_, rfl, ?_, ?_⟩ <;>
    cases fail_silently <;>
    simp [JavascriptCache.get_urls, JavascriptCache.get_urls_default,
      JavascriptAsset.save, hne, hrc]

/-- Witness for C8's amended theorem at a concrete failing compiler. -/
theorem get_urls_fail_silently_controls_propagation_witness :
    ((JavascriptCache.get_urls ["a"] true false
        (fun _ => ⟨1, "out", "err"⟩) "n.js").error ≠ none ↔ false = false) ∧
    JavascriptCache.get_urls_default ["a"] (fun _ => ⟨1, "out", "err"⟩) "n.js" =
      JavascriptCache.get_urls ["a"] true true
        (fun _ => ⟨1, "out", "err"⟩) "n.js" ∧
    (JavascriptCache.get_urls_default ["a"]
        (fun _ => ⟨1, "out", "err"⟩) "n.js").error = none ∧
    "err" ∈ (JavascriptCache.get_urls_default ["a"]
        (fun _ => ⟨1, "out", "err"⟩) "n.js").logged :=
  get_urls_fail_silently_controls_propagation ["a"]
    (fun _ => ⟨1, "out", "err"⟩) "n.js" false (by decide) (by decide)

/-! ### C9 -/

/-- **C9**: if `ThumbnailAsset.save` fails at any step — decode, resize or
write — no artifact is left under the destination path, and the propagated
exception is an `IOError`: a resize failure is re-raised as `IOError`
before anything is written, and a write failure is re-raised as `IOError`
with the incomplete file removed in the `finally` block. The hypothesis on
`decode` is the PIL contract that `Image.open` failures are `IOError`s. -/
theorem thumbnail_save_no_partial_artifact (decode resize : Except PyErr Unit)
    (write : Except (PyErr × Bool) Unit) (thumbnail_path : String)
    (fs : Finset String) (hpath : thumbnail_path ∉ fs)
    (hdecode : ∀ ex, decode = .error ex → ∃ msg, ex = .ioError msg) :
    ∀ ex, (ThumbnailAsset.save decode resize write thumbnail_path fs).result =
        some ex →
      (∃ msg, ex = PyErr.ioError msg) ∧
      thumbnail_path ∉
        (ThumbnailAsset.save decode resize write thumbnail_path fs).files := by
  intro ex hex
  unfold ThumbnailAsset.save at hex ⊢
  cases decode with
  | error e =>
      simp only [Option.some.injEq] at hex
      subst hex
      exact ⟨hdecode _ rfl, by simpa using hpath⟩
  | ok u =>
      cases resize with
      | error e =>
          simp only [Option.some.injEq] at hex
          subst hex
          exact ⟨⟨_, rfl⟩, by simpa using hpath⟩
      | ok v =>
          cases write with
          | ok w => simp at hex
          | error p =>
              obtain ⟨e, partialWritten⟩ := p
              simp only [Option.some.injEq] at hex
              subst hex
              exact ⟨⟨_, rfl⟩, by simp⟩

/-- Witness for C9: a concrete failed write leaves no file behind and
surfaces as an `IOError`. -/
theorem thumbnail_save_no_partial_artifact_witness :
    (∃ msg, PyErr.ioError "disk full" = PyErr.ioError msg) ∧
    "cache/t.jpg" ∉ (ThumbnailAsset.save (.ok ()) (.ok ())
        (.error (.other "disk full", true)) "cache/t.jpg" ∅).files :=
  thumbnail_save_no_partial_artifact (.ok ()) (.ok ())
    (.error (.other "disk full", true)) "cache/t.jpg" ∅
    (by simp) (by simp) (PyErr.ioError "disk full") rfl

/-! ### C10 -/

/-- **C10**: whenever the computed data size equals the natural size but
the display size differs from it, `get_thumbnail` passes the original asset
through untouched while the returned `Thumbnail` reports the display
dimensions, so the reported dimensions differ from the dimensions of the
artifact actually served. -/
theorem passthrough_reports_display_size (original_size requested_size : Size)
    (m : MethodName)
    (hdata : (ThumbnailCache.get_thumbnail original_size requested_size
        m).data_size = original_size)
    (hdisp : (ThumbnailCache.get_thumbnail original_size requested_size
        m).display_size ≠ original_size) :
    (ThumbnailCache.get_thumbnail original_size requested_size m).choice =
      .original ∧
    (ThumbnailCache.get_thumbnail original_size requested_size m).width =
      (ThumbnailCache.get_thumbnail original_size requested_size
        m).display_size.width ∧
    (ThumbnailCache.get_thumbnail original_size requested_size m).height =
      (ThumbnailCache.get_thumbnail original_size requested_size
        m).display_size.height ∧
    (ThumbnailCache.get_thumbnail original_size requested_size
        m).artifactSize original_size m ≠
      (ThumbnailCache.get_thumbnail original_size requested_size
        m).display_size := by
  have hchoice : (ThumbnailCache.get_thumbnail original_size requested_size
      m).choice = .original := by
    unfold ThumbnailCache.get_thumbnail at hdata ⊢
    simp only at hdata ⊢
    rw [if_pos hdata]
  refine ⟨hchoice, rfl, rfl, ?_⟩
  unfold ThumbOutcome.artifactSize
  rw [hchoice]
  exact fun h => hdisp h.symm

/-- Witness for C10: a proportional request of 200×200 against a 100×100
natural size passes the original through yet reports 200×200. -/
theorem passthrough_reports_display_size_witness :
    (ThumbnailCache.get_thumbnail ⟨some 100, some 100⟩ ⟨some 200, some 200⟩
        .proportional).choice = .original ∧
    (ThumbnailCache.get_thumbnail ⟨some 100, some 100⟩ ⟨some 200, some 200⟩
        .proportional).width =
      (ThumbnailCache.get_thumbnail ⟨some 100, some 100⟩ ⟨some 200, some 200⟩
        .proportional).display_size.width ∧
    (ThumbnailCache.get_thumbnail ⟨some 100, some 100⟩ ⟨some 200, some 200⟩
        .proportional).height =
      (ThumbnailCache.get_thumbnail ⟨some 100, some 100⟩ ⟨some 200, some 200⟩
        .proportional).display_size.height ∧
    (ThumbnailCache.get_thumbnail ⟨some 100, some 100⟩ ⟨some 200, some 200⟩
        .proportional).artifactSize ⟨some 100, some 100⟩ .proportional ≠
      (ThumbnailCache.get_thumbnail ⟨some 100, some 100⟩ ⟨some 200, some 200⟩
        .proportional).display_size :=
  passthrough_reports_display_size ⟨some 100, some 100⟩ ⟨some 200, some 200⟩
    .proportional
    (by simp [ThumbnailCache.get_thumbnail, _methods, _size, _size_proportional,
        _replace_null, Size.constrain, Size.intersect, Size.aspect, Size.w,
        Size.h, pyMinOpt, maxint, pyRound] <;> norm_num)
    (by simp [ThumbnailCache.get_thumbnail, _methods, _size, _size_proportional,
        _replace_null, Size.constrain, Size.intersect, Size.aspect, Size.w,
        Size.h, pyMinOpt, maxint, pyRound] <;> norm_num)

/-! ### C5 -/

/-- **C5**: whenever the resolved display geometry equals the source's
natural size (for any strategy), the data size also equals the natural
size, so `get_thumbnail` wraps the original asset — no `ThumbnailAsset` is
built and hence no decode/resample transform is ever invoked — and the
thumbnail reports the natural dimensions. -/
theorem noop_geometry_yields_identity (Nw Nh : ℤ) (hNw : 0 < Nw)
    (hNh : 0 < Nh) (requested : Size) (m : MethodName)
    (hdisp : (ThumbnailCache.get_thumbnail ⟨some Nw, some Nh⟩ requested
        m).display_size = ⟨some Nw, some Nh⟩) :
    (ThumbnailCache.get_thumbnail ⟨some Nw, some Nh⟩ requested m).choice =
      AssetChoice.original ∧
    (ThumbnailCache.get_thumbnail ⟨some Nw, some Nh⟩ requested m).width =
      some Nw ∧
    (ThumbnailCache.get_thumbnail ⟨some Nw, some Nh⟩ requested m).height =
      some Nh := by
  rw [get_thumbnail_display_size] at hdisp
  have hdata : (ThumbnailCache.get_thumbnail ⟨some Nw, some Nh⟩ requested
      m).data_size = ⟨some Nw, some Nh⟩ := by
    rw [get_thumbnail_data_size, hdisp, intersect_self]
    cases m with
    | proportional => simp [_methods, _size, _replace_null]
    | resize => simp [_methods, _size, _replace_null]
    | crop =>
        show _size_proportional ⟨some Nw, some Nh⟩ ⟨some Nw, some Nh⟩ = _
        exact size_proportional_self Nw Nh hNw hNh
  refine ⟨?_, ?_, ?_⟩
  · rw [get_thumbnail_choice, if_pos hdata]
  · rw [(get_thumbnail_reported _ _ _).1, get_thumbnail_display_size, hdisp]
  · rw [(get_thumbnail_reported _ _ _).2, get_thumbnail_display_size, hdisp]

/-- Witness for C5: a crop request of exactly the natural 640×480 passes
the original through and reports 640×480. -/
theorem noop_geometry_yields_identity_witness :
    (0:ℤ) < 640 ∧ (0:ℤ) < 480 ∧
    ((ThumbnailCache.get_thumbnail ⟨some 640, some 480⟩ ⟨some 640, some 480⟩
        .crop).choice = AssetChoice.original ∧
     (ThumbnailCache.get_thumbnail ⟨some 640, some 480⟩ ⟨some 640, some 480⟩
        .crop).width = some 640 ∧
     (ThumbnailCache.get_thumbnail ⟨some 640, some 480⟩ ⟨some 640, some 480⟩
        .crop).height = some 480) :=
  ⟨by norm_num, by norm_num,
    noop_geometry_yields_identity 640 480 (by norm_num) (by norm_num)
      ⟨some 640, some 480⟩ .crop rfl⟩

/-! ### C3 -/

/-- **C3** (counterexample): for the resize (exact) strategy with natural
size 100×100 and requested size 200×200, the display size is 200×200 but
the sample (data) size is 100×100 — the sample size does not equal the
display size. -/
theorem sample_size_differs_counterexample :
    (ThumbnailCache.get_thumbnail ⟨some 100, some 100⟩ ⟨some 200, some 200⟩
        .resize).display_size = ⟨some 200, some 200⟩ ∧
    (ThumbnailCache.get_thumbnail ⟨some 100, some 100⟩ ⟨some 200, some 200⟩
        .resize).data_size = ⟨some 100, some 100⟩ ∧
    (ThumbnailCache.get_thumbnail ⟨some 100, some 100⟩ ⟨some 200, some 200⟩
        .resize).data_size ≠
      (ThumbnailCache.get_thumbnail ⟨some 100, some 100⟩ ⟨some 200, some 200⟩
        .resize).display_size := by
  refine ⟨rfl, ?_, ?_⟩ <;>
    simp [get_thumbnail_data_size, get_thumbnail_display_size, _methods,
      _size, _replace_null, Size.intersect, pyMinOpt]

/-- **C3** (amended): for the proportional and resize strategies the sample
size equals the display size intersected (componentwise `min`) with the
natural size; in particular it equals the display size exactly as claimed
whenever the display size fits within the natural size on both axes. -/
theorem sample_size_eq_display_intersect_natural (Nw Nh : ℤ)
    (requested : Size) (m : MethodName)
    (hm : m = MethodName.proportional ∨ m = MethodName.resize) :
    (ThumbnailCache.get_thumbnail ⟨some Nw, some Nh⟩ requested
        m).data_size =
      (ThumbnailCache.get_thumbnail ⟨some Nw, some Nh⟩ requested
        m).display_size.intersect ⟨some Nw, some Nh⟩ ∧
    (∀ Dw Dh : ℤ,
      (ThumbnailCache.get_thumbnail ⟨some Nw, some Nh⟩ requested
          m).display_size = ⟨some Dw, some Dh⟩ →
      Dw ≤ Nw → Dh ≤ Nh →
      (ThumbnailCache.get_thumbnail ⟨some Nw, some Nh⟩ requested
          m).data_size =
        (ThumbnailCache.get_thumbnail ⟨some Nw, some Nh⟩ requested
          m).display_size) := by
  obtain ⟨Dw, Dh, hD⟩ := display_size_concrete Nw Nh requested m
  have h1 : (ThumbnailCache.get_thumbnail ⟨some Nw, some Nh⟩ requested
      m).data_size =
      (ThumbnailCache.get_thumbnail ⟨some Nw, some Nh⟩ requested
        m).display_size.intersect ⟨some Nw, some Nh⟩ := by
    rw [get_thumbnail_data_size, get_thumbnail_display_size, hD]
    rcases hm with hm | hm <;> subst hm <;>
      simp [_methods, _size, _replace_null, Size.intersect, pyMinOpt]
  refine ⟨h1, ?_⟩
  intro Dw' Dh' hD' hWle hHle
  rw [get_thumbnail_display_size, hD] at hD'
  simp only [Size.mk.injEq, Option.some.injEq] at hD'
  obtain ⟨hw1, hh1⟩ := hD'
  subst hw1
  subst hh1
  rw [h1, get_thumbnail_display_size, hD]
  simp [Size.intersect, pyMinOpt, min_eq_left hWle, min_eq_left hHle]

/-- Witness for C3's amended theorem: proportional, natural 1000×500,
requested (200, None). -/
theorem sample_size_eq_display_intersect_natural_witness :
    (ThumbnailCache.get_thumbnail ⟨some 1000, some 500⟩ ⟨some 200, none⟩
        .proportional).data_size =
      (ThumbnailCache.get_thumbnail ⟨some 1000, some 500⟩ ⟨some 200, none⟩
        .proportional).display_size.intersect ⟨some 1000, some 500⟩ ∧
    (∀ Dw Dh : ℤ,
      (ThumbnailCache.get_thumbnail ⟨some 1000, some 500⟩ ⟨some 200, none⟩
          .proportional).display_size = ⟨some Dw, some Dh⟩ →
      Dw ≤ 1000 → Dh ≤ 500 →
      (ThumbnailCache.get_thumbnail ⟨some 1000, some 500⟩ ⟨some 200, none⟩
          .proportional).data_size =
        (ThumbnailCache.get_thumbnail ⟨some 1000, some 500⟩ ⟨some 200, none⟩
          .proportional).display_size) :=
  sample_size_eq_display_intersect_natural 1000 500 ⟨some 200, none⟩
    .proportional (Or.inl rfl)

/-! ### C4 -/

/-- **C4** (counterexample): for the crop strategy with natural size
100×100 and requested size 200×100 (both axes specified and positive), the
produced image is 100×50, not the requested 200×100: the crop transform
outputs the sample size, which is capped at the natural size. -/
theorem crop_output_mismatch_counterexample :
    (ThumbnailCache.get_thumbnail ⟨some 100, some 100⟩ ⟨some 200, some 100⟩
        .crop).artifactSize ⟨some 100, some 100⟩ .crop =
      ⟨some 100, some 50⟩ ∧
    (⟨some 100, some 50⟩ : Size) ≠ ⟨some 200, some 100⟩ := by
  have hdata : (ThumbnailCache.get_thumbnail ⟨some 100, some 100⟩
      ⟨some 200, some 100⟩ .crop).data_size = ⟨some 100, some 50⟩ := by
    rw [get_thumbnail_data_size]
    simp [_methods, _size, _size_proportional, _replace_null, Size.constrain,
      Size.intersect, Size.aspect, Size.w, Size.h, pyMinOpt, maxint,
      pyRound] <;> norm_num
  have hchoice : (ThumbnailCache.get_thumbnail ⟨some 100, some 100⟩
      ⟨some 200, some 100⟩ .crop).choice = AssetChoice.thumbnailAsset := by
    rw [get_thumbnail_choice, hdata, if_neg (by decide)]
  constructor
  · rw [artifactSize_thumbnail _ _ _ hchoice,
      show (_methods MethodName.crop).do_resize = _resize_cropped from rfl,
      resize_cropped_size, hdata]
    simp [Size.w, Size.h]
  · decide

/-- **C4** (amended): for every natural size with positive dimensions and
every requested size with both axes specified, positive, and no larger
than the corresponding natural dimension, the crop strategy's output image
dimensions exactly equal the requested size, regardless of the natural
aspect ratio. -/
theorem crop_output_exact (Nw Nh W H : ℤ) (hNw : 0 < Nw) (hNh : 0 < Nh)
    (hW : 0 < W) (hH : 0 < H) (hWle : W ≤ Nw) (hHle : H ≤ Nh) :
    (ThumbnailCache.get_thumbnail ⟨some Nw, some Nh⟩ ⟨some W, some H⟩
        .crop).display_size = ⟨some W, some H⟩ ∧
    (ThumbnailCache.get_thumbnail ⟨some Nw, some Nh⟩ ⟨some W, some H⟩
        .crop).artifactSize ⟨some Nw, some Nh⟩ .crop =
      ⟨some W, some H⟩ := by
  have hdisp : (ThumbnailCache.get_thumbnail ⟨some Nw, some Nh⟩
      ⟨some W, some H⟩ .crop).display_size = ⟨some W, some H⟩ := rfl
  have hint : Size.intersect ⟨some W, some H⟩ ⟨some Nw, some Nh⟩ =
      ⟨some W, some H⟩ := by
    simp [Size.intersect, pyMinOpt, min_eq_left hWle, min_eq_left hHle]
  have hdata : (ThumbnailCache.get_thumbnail ⟨some Nw, some Nh⟩
      ⟨some W, some H⟩ .crop).data_size = ⟨some W, some H⟩ := by
    rw [get_thumbnail_data_size,
      show (_methods MethodName.crop).get_data_size = _size_proportional
        from rfl,
      show (_methods MethodName.crop).get_display_size ⟨some Nw, some Nh⟩
          ⟨some W, some H⟩ = ⟨some W, some H⟩ from rfl,
      hint]
    exact size_proportional_self W H hW hH
  refine ⟨hdisp, ?_⟩
  by_cases hid : (⟨some W, some H⟩ : Size) = (⟨some Nw, some Nh⟩ : Size)
  · have hchoice : (ThumbnailCache.get_thumbnail ⟨some Nw, some Nh⟩
        ⟨some W, some H⟩ .crop).choice = AssetChoice.original := by
      rw [get_thumbnail_choice, hdata, if_pos hid]
    rw [artifactSize_original _ _ _ hchoice]
    exact hid.symm
  · have hchoice : (ThumbnailCache.get_thumbnail ⟨some Nw, some Nh⟩
        ⟨some W, some H⟩ .crop).choice = AssetChoice.thumbnailAsset := by
      rw [get_thumbnail_choice, hdata, if_neg hid]
    rw [artifactSize_thumbnail _ _ _ hchoice,
      show (_methods MethodName.crop).do_resize = _resize_cropped from rfl,
      resize_cropped_size, hdata]
    simp [Size.w, Size.h]

/-- Witness for C4's amended theorem: the spec's own example, natural
1000×500 with requested 200×300, crops to exactly 200×300. -/
theorem crop_output_exact_witness :
    ((0:ℤ) < 1000 ∧ (0:ℤ) < 500 ∧ (0:ℤ) < 200 ∧ (0:ℤ) < 300 ∧
      (200:ℤ) ≤ 1000 ∧ (300:ℤ) ≤ 500) ∧
    (ThumbnailCache.get_thumbnail ⟨some 1000, some 500⟩ ⟨some 200, some 300⟩
        .crop).display_size = ⟨some 200, some 300⟩ ∧
    (ThumbnailCache.get_thumbnail ⟨some 1000, some 500⟩ ⟨some 200, some 300⟩
        .crop).artifactSize ⟨some 1000, some 500⟩ .crop =
      ⟨some 200, some 300⟩ :=
  ⟨by norm_num,
    crop_output_exact 1000 500 200 300 (by norm_num) (by norm_num)
      (by norm_num) (by norm_num) (by norm_num) (by norm_num)⟩

/-! ### C2 -/

/-- **C2** (counterexample): with natural size 100×100 and requested size
(None, 200), the proportional display width is 200, exceeding the natural
width 100 even though the width axis of the request is unset — the unset
axis is treated as unbounded (`sys.maxint`), not as the natural bound. -/
theorem proportional_unset_axis_exceeds_natural :
    (_size_proportional ⟨some 100, some 100⟩ ⟨none, some 200⟩).width =
      some 200 ∧ ¬((200 : ℤ) ≤ 100) := by
  constructor
  · simp [_size_proportional, _replace_null, Size.constrain, Size.aspect,
      Size.w, Size.h, maxint, pyRound] <;> norm_num
  · norm_num

/-- **C2** (amended): for every natural size with positive dimensions and
every requested size, the proportional display size preserves the natural
aspect ratio within integer rounding (the cross products `Dw·Nh` and
`Dh·Nw` differ by at most `Nw + Nh`, one rounding unit per axis), and each
output dimension is at most the corresponding requested bound when that
axis is specified; when additionally every specified axis of the request
is at most the corresponding natural dimension, both output dimensions are
at most the corresponding natural dimensions (without that proviso the
output on an unset axis can exceed the natural size). -/
theorem proportional_display_size_spec (Nw Nh : ℤ) (hNw : 0 < Nw)
    (hNh : 0 < Nh) (requested : Size) :
    ∃ Dw Dh : ℤ,
      _size_proportional ⟨some Nw, some Nh⟩ requested =
        ⟨some Dw, some Dh⟩ ∧
      |Dw * Nh - Dh * Nw| ≤ Nw + Nh ∧
      (∀ W, requested.width = some W → Dw ≤ W) ∧
      (∀ H, requested.height = some H → Dh ≤ H) ∧
      ((∀ W, requested.width = some W → W ≤ Nw) →
        (∀ H, requested.height = some H → H ≤ Nh) →
        Dw ≤ Nw ∧ Dh ≤ Nh) := by
  have hNwQ : (0 : ℚ) < (Nw : ℚ) := by exact_mod_cast hNw
  have hNhQ : (0 : ℚ) < (Nh : ℚ) := by exact_mod_cast hNh
  obtain ⟨rqw, rqh⟩ := requested
  cases rqw with
  | none =>
    cases rqh with
    | none =>
        refine ⟨Nw, Nh, rfl, ?_, ?_, ?_, ?_⟩
        · have h0 : Nw * Nh - Nh * Nw = 0 := by ring
          rw [h0, abs_zero]
          linarith
        · intro W h
          cases h
        · intro H h
          cases h
        · intro _ _
          exact ⟨le_refl _, le_refl _⟩
    | some H =>
        refine ⟨_, _, rfl, constrain_cross_bound Nw Nh maxint H hNw hNh,
          ?_, ?_, ?_⟩
        · intro W h
          cases h
        · intro H' h
          cases h
          exact min_le_right _ _
        · intro hWN hHN
          have hH : H ≤ Nh := hHN H rfl
          constructor
          · refine le_trans (min_le_left _ _) (pyRound_le_int _ _ ?_)
            have hHQ : (H : ℚ) ≤ (Nh : ℚ) := by exact_mod_cast hH
            have h := mul_le_mul_of_nonneg_right hHQ
              (le_of_lt (div_pos hNwQ hNhQ))
            calc (H : ℚ) * ((Nw : ℚ) / (Nh : ℚ))
                ≤ (Nh : ℚ) * ((Nw : ℚ) / (Nh : ℚ)) := h
              _ = (Nw : ℚ) := by field_simp
          · exact le_trans (min_le_right _ _) hH
  | some W =>
    cases rqh with
    | none =>
        refine ⟨_, _, rfl, constrain_cross_bound Nw Nh W maxint hNw hNh,
          ?_, ?_, ?_⟩
        · intro W' h
          cases h
          exact min_le_right _ _
        · intro H h
          cases h
        · intro hWN hHN
          have hW : W ≤ Nw := hWN W rfl
          constructor
          · exact le_trans (min_le_right _ _) hW
          · refine le_trans (min_le_left _ _) (pyRound_le_int _ _ ?_)
            have hWQ : (W : ℚ) ≤ (Nw : ℚ) := by exact_mod_cast hW
            simp only [_replace_null, Size.w, Size.h, Size.aspect,
              Option.getD_some]
            rw [div_div_eq_mul_div]
            rw [div_le_iff₀ hNwQ]
            have := mul_le_mul_of_nonneg_right hWQ (le_of_lt hNhQ)
            linarith [this]
    | some H =>
        refine ⟨_, _, rfl, constrain_cross_bound Nw Nh W H hNw hNh,
          ?_, ?_, ?_⟩
        · intro W' h
          cases h
          exact min_le_right _ _
        · intro H' h
          cases h
          exact min_le_right _ _
        · intro hWN hHN
          exact ⟨le_trans (min_le_right _ _) (hWN W rfl),
            le_trans (min_le_right _ _) (hHN H rfl)⟩

/-- Witness for C2's amended theorem: the spec's own example, natural
1000×500 with requested (200, None). -/
theorem proportional_display_size_spec_witness :
    (0 : ℤ) < 1000 ∧ (0 : ℤ) < 500 ∧
    ∃ Dw Dh : ℤ,
      _size_proportional ⟨some 1000, some 500⟩ ⟨some 200, none⟩ =
        ⟨some Dw, some Dh⟩ ∧
      |Dw * 500 - Dh * 1000| ≤ 1000 + 500 ∧
      (∀ W, (⟨some 200, none⟩ : Size).width = some W → Dw ≤ W) ∧
      (∀ H, (⟨some 200, none⟩ : Size).height = some H → Dh ≤ H) ∧
      ((∀ W, (⟨some 200, none⟩ : Size).width = some W → W ≤ 1000) →
        (∀ H, (⟨some 200, none⟩ : Size).height = some H → H ≤ 500) →
        Dw ≤ 1000 ∧ Dh ≤ 500) :=
  ⟨by norm_num, by norm_num,
    proportional_display_size_spec 1000 500 (by norm_num) (by norm_num)
      ⟨some 200, none⟩⟩

end Optimizations
